import Mathlib

/-!
Verification of the CampuSupport ticketing backend.

The definitions below are a shallow embedding of the Python handlers in
`app/main.py` (ticket service) and `agent_service/main.py` (agent heuristics),
over the data model of `app/models.py`.  Conventions of the embedding:

* time instants (`datetime.utcnow()`) are whole seconds since the epoch
  (`Time := Nat`); calendar dates (`datetime.date`) are whole days, obtained
  by `dateOf` (integer division by 86400);
* the SQLAlchemy session is passed explicitly: a `List Ticket` (resp.
  `List User`, `List Department`) stands for the table, and `db.get(Model, id)`
  becomes `List.find?` on the primary key;
* `HTTPException(status_code, detail)` becomes `Except.error ⟨code, detail⟩`;
  a handler that commits a mutation returns the mutated row in `Except.ok`;
* Python's `x.department_id != y.department_id` between a non-nullable and a
  nullable column is compared through `Option`;
* pydantic payloads with `exclude_unset=True` are records of `Option` fields,
  `none` meaning "field not provided".
-/

namespace CampuSupport

abbrev Time := Nat

/-- `models.RoleEnum`. -/
inductive RoleEnum
  | student
  | support
  | department
  | admin
deriving DecidableEq, Repr

/-- `models.TicketStatus`. -/
inductive TicketStatus
  | «open»
  | in_progress
  | resolved
  | closed
deriving DecidableEq, Repr

/-- `models.TicketPriority`. -/
inductive TicketPriority
  | low
  | medium
  | high
deriving DecidableEq, Repr

/-- The `(status_code, detail)` pair of a raised `HTTPException`. -/
structure HTTPError where
  code : Nat
  detail : String
deriving DecidableEq, Repr

/-- `models.User` (password hash and timestamps irrelevant to the claims are
omitted; they are never read by the handlers below). -/
structure User where
  id : Nat
  email : String
  role : RoleEnum
  departmentId : Option Nat
deriving DecidableEq, Repr

/-- `models.Department`. -/
structure Department where
  id : Nat
  name : String
  description : Option String
deriving DecidableEq, Repr

/-- `models.Ticket`. -/
structure Ticket where
  id : Nat
  title : String
  description : String
  category : Option String
  assignedUnit : Option String
  priority : TicketPriority
  status : TicketStatus
  departmentId : Nat
  createdById : Nat
  assignedToId : Option Nat
  createdAt : Time
  updatedAt : Time
  firstResponseAt : Option Time
  resolvedAt : Option Time
  closedAt : Option Time
  assignedAt : Option Time
deriving DecidableEq, Repr

/-- `models.Comment` (the `id` primary key is irrelevant to the claims). -/
structure Comment where
  ticketId : Nat
  authorId : Nat
  content : String
  createdAt : Time
deriving DecidableEq, Repr

/-- `db.get(models.Ticket, ticket_id)`. -/
def dbGetTicket (db : List Ticket) (ticketId : Nat) : Option Ticket :=
  db.find? (fun t => t.id == ticketId)

/-- `db.get(models.Department, department_id)`. -/
def dbGetDepartment (db : List Department) (departmentId : Nat) : Option Department :=
  db.find? (fun d => d.id == departmentId)

/-- `db.get(models.User, user_id)`. -/
def dbGetUser (db : List User) (userId : Nat) : Option User :=
  db.find? (fun u => u.id == userId)

/-- `ensure_ticket_visibility` (main.py:125-132): `none` when the check
passes, `some e` when it raises. -/
def ensure_ticket_visibility (ticket : Ticket) (user : User) : Option HTTPError :=
  if user.role = RoleEnum.admin then none
  else if ticket.createdById = user.id then none
  else if (user.role = RoleEnum.department ∨ user.role = RoleEnum.support)
      ∧ user.departmentId = some ticket.departmentId then none
  else some ⟨403, "You cannot view this ticket"⟩

/-- `schemas.TicketCreate`. -/
structure TicketCreate where
  title : String
  description : String
  departmentId : Nat
  priority : TicketPriority
  category : Option String
  assignedUnit : Option String
deriving DecidableEq, Repr

/-- `create_ticket` (main.py:288-314).  `newId` is the primary key the store
allocates on insert; `now` the column defaults for `created_at`/`updated_at`. -/
def create_ticket (departments : List Department) (current_user : User)
    (ticket_in : TicketCreate) (newId : Nat) (now : Time) : Except HTTPError Ticket :=
  if current_user.role = RoleEnum.support then
    .error ⟨403, "Support users cannot create tickets"⟩
  else
    match dbGetDepartment departments ticket_in.departmentId with
    | none => .error ⟨404, "Department not found"⟩
    | some _ =>
        .ok
          { id := newId
            title := ticket_in.title
            description := ticket_in.description
            category := ticket_in.category
            assignedUnit := ticket_in.assignedUnit
            priority := ticket_in.priority
            status := TicketStatus.«open»
            departmentId := ticket_in.departmentId
            createdById := current_user.id
            assignedToId := none
            createdAt := now
            updatedAt := now
            firstResponseAt := none
            resolvedAt := none
            closedAt := none
            assignedAt := none }

/-- `get_ticket` (main.py:342-348). -/
def get_ticket (db : List Ticket) (current_user : User) (ticketId : Nat) :
    Except HTTPError Ticket :=
  match dbGetTicket db ticketId with
  | none => .error ⟨404, "Ticket not found"⟩
  | some ticket =>
      match ensure_ticket_visibility ticket current_user with
      | some e => .error e
      | none => .ok ticket

/-- `schemas.TicketUpdate` under `model_dump(exclude_unset=True)`:
`none` = field absent from the payload. -/
structure TicketUpdate where
  title : Option String := none
  description : Option String := none
  priority : Option TicketPriority := none
  category : Option (Option String) := none
  assignedUnit : Option (Option String) := none
deriving DecidableEq, Repr

/-- `not updates` after `model_dump(exclude_unset=True)`. -/
def TicketUpdate.isEmptyUpdate (p : TicketUpdate) : Bool :=
  p.title.isNone && p.description.isNone && p.priority.isNone
    && p.category.isNone && p.assignedUnit.isNone

/-- The `setattr` loop of `update_ticket` (main.py:399-400). -/
def applyTicketUpdate (ticket : Ticket) (p : TicketUpdate) : Ticket :=
  { ticket with
    title := p.title.getD ticket.title
    description := p.description.getD ticket.description
    priority := p.priority.getD ticket.priority
    category := p.category.getD ticket.category
    assignedUnit := p.assignedUnit.getD ticket.assignedUnit }

/-- `update_ticket` (main.py:376-404). -/
def update_ticket (db : List Ticket) (current_user : User) (ticketId : Nat)
    (payload : TicketUpdate) (now : Time) : Except HTTPError Ticket :=
  match dbGetTicket db ticketId with
  | none => .error ⟨404, "Ticket not found"⟩
  | some ticket =>
      if current_user.role = RoleEnum.support then
        .error ⟨403, "Support users cannot edit tickets"⟩
      else if current_user.role = RoleEnum.student ∧ ticket.createdById ≠ current_user.id then
        .error ⟨403, "You can only edit your tickets"⟩
      else if current_user.role = RoleEnum.department
          ∧ some ticket.departmentId ≠ current_user.departmentId then
        .error ⟨403, "Not your department"⟩
      else if ticket.status = TicketStatus.closed then
        .error ⟨400, "Closed tickets cannot be edited"⟩
      else if payload.isEmptyUpdate then
        .ok ticket
      else
        .ok { applyTicketUpdate ticket payload with updatedAt := now }

/-- `assign_ticket` (main.py:442-467).  The role gate (main.py:449) runs
before the ticket is fetched.  Python's
`if not support_user or support_user.role != support` is split into the
`none` branch and the role test, both with the same error.  The handler sets
only `assigned_to_id` and `assigned_at`, but the ORM column default
`updated_at = Column(..., onupdate=datetime.utcnow)` (models.py:81) restamps
`updated_at` on the commit's UPDATE, so the committed row carries
`updatedAt := now` as well. -/
def assign_ticket (tickets : List Ticket) (users : List User) (current_user : User)
    (ticketId : Nat) (support_user_id : Nat) (now : Time) : Except HTTPError Ticket :=
  if current_user.role ≠ RoleEnum.department ∧ current_user.role ≠ RoleEnum.admin then
    .error ⟨403, "Only department/admin can assign tickets"⟩
  else
    match dbGetTicket tickets ticketId with
    | none => .error ⟨404, "Ticket not found"⟩
    | some ticket =>
        if current_user.role = RoleEnum.department
            ∧ some ticket.departmentId ≠ current_user.departmentId then
          .error ⟨403, "Ticket is not in your department"⟩
        else
          match dbGetUser users support_user_id with
          | none => .error ⟨400, "Support user not found"⟩
          | some support_user =>
              if support_user.role ≠ RoleEnum.support then
                .error ⟨400, "Support user not found"⟩
              else if support_user.departmentId ≠ some ticket.departmentId then
                .error ⟨400, "Support user is in a different department"⟩
              else
                .ok { ticket with
                  assignedToId := some support_user.id
                  assignedAt := some now
                  updatedAt := now }

/-- `update_ticket_status` (main.py:470-503).  The Python `elif` chain keys
each authorization test on the actor's role, so translating it as a chain of
conjunctive guards is equivalent. -/
def update_ticket_status (db : List Ticket) (current_user : User) (ticketId : Nat)
    (newStatus : TicketStatus) (now : Time) : Except HTTPError Ticket :=
  match dbGetTicket db ticketId with
  | none => .error ⟨404, "Ticket not found"⟩
  | some ticket =>
      if current_user.role = RoleEnum.support ∧ ticket.assignedToId ≠ some current_user.id then
        .error ⟨403, "Only assigned support can update status"⟩
      else if current_user.role = RoleEnum.department
          ∧ some ticket.departmentId ≠ current_user.departmentId then
        .error ⟨403, "Not your department"⟩
      else if current_user.role = RoleEnum.student then
        .error ⟨403, "Students cannot change status"⟩
      else
        .ok { ticket with
          status := newStatus
          updatedAt := now
          firstResponseAt :=
            if newStatus = TicketStatus.in_progress ∧ ticket.firstResponseAt = none then
              some now
            else ticket.firstResponseAt
          resolvedAt :=
            if (newStatus = TicketStatus.resolved ∨ newStatus = TicketStatus.closed)
                ∧ ticket.resolvedAt = none then
              some now
            else ticket.resolvedAt
          closedAt :=
            if newStatus = TicketStatus.closed then some now else ticket.closedAt }

/-- `delete_ticket` (main.py:506-531): returns the table with the row removed
(comment cascade is implicit in the relational model and not tracked here). -/
def delete_ticket (db : List Ticket) (current_user : User) (ticketId : Nat) :
    Except HTTPError (List Ticket) :=
  match dbGetTicket db ticketId with
  | none => .error ⟨404, "Ticket not found"⟩
  | some ticket =>
      if current_user.role = RoleEnum.admin
          ∨ (current_user.role = RoleEnum.department
              ∧ some ticket.departmentId = current_user.departmentId)
          ∨ (current_user.role = RoleEnum.student
              ∧ ticket.createdById = current_user.id
              ∧ ticket.status = TicketStatus.«open») then
        .ok (db.filter (fun t => t.id != ticket.id))
      else
        .error ⟨403, "You cannot delete this ticket"⟩

/-- `add_comment` (main.py:534-559): returns the mutated ticket row together
with the inserted comment.  The two `datetime.utcnow()` calls of the handler
happen in the same request and are both modelled as `now`. -/
def add_comment (db : List Ticket) (current_user : User) (ticketId : Nat)
    (content : String) (now : Time) : Except HTTPError (Ticket × Comment) :=
  match dbGetTicket db ticketId with
  | none => .error ⟨404, "Ticket not found"⟩
  | some ticket =>
      match ensure_ticket_visibility ticket current_user with
      | some e => .error e
      | none =>
          .ok
            ({ ticket with
                updatedAt := now
                firstResponseAt :=
                  if current_user.role = RoleEnum.support ∧ ticket.firstResponseAt = none then
                    some now
                  else ticket.firstResponseAt },
             { ticketId := ticketId
               authorId := current_user.id
               content := content
               createdAt := now })

/-- `schemas.AgentUpdate` under `model_dump(exclude_unset=True)`; the doubled
`Option` distinguishes "absent" from "provided as null". -/
structure AgentUpdate where
  priority : Option (Option TicketPriority) := none
  category : Option (Option String) := none
  assignedUnit : Option (Option String) := none
  message : Option String := none
deriving DecidableEq, Repr

/-- `internal_agent_update` (main.py:609-635), ticket mutation only (the
optional bot comment inserted alongside does not touch the ticket row). -/
def internal_agent_update (db : List Ticket) (ticketId : Nat) (payload : AgentUpdate)
    (now : Time) : Except HTTPError Ticket :=
  match dbGetTicket db ticketId with
  | none => .error ⟨404, "Ticket not found"⟩
  | some ticket =>
      .ok { ticket with
        priority :=
          match payload.priority with
          | some (some p) => p
          | _ => ticket.priority
        category :=
          match payload.category with
          | some c => c
          | none => ticket.category
        assignedUnit :=
          match payload.assignedUnit with
          | some u => u
          | none => ticket.assignedUnit
        updatedAt := now }

/-- Python's `text.lower()`, character by character (all keywords below are
ASCII, where Python's and Lean's lowercasing agree); the result is kept as a
character list. -/
def pyLower (text : String) : List Char :=
  text.data.map Char.toLower

/-- Python's substring test `needle in hay`. -/
def strContains (hay : List Char) (needle : String) : Bool :=
  decide (needle.data <:+: hay)

/-- The urgency keyword list shared by `simple_priority_guess` (main.py:191)
and `heuristic_priority` (agent_service/main.py:63). -/
def urgencyKeywords : List String :=
  ["acil", "urgent", "kopuyor", "kilit", "down", "calismiyor"]

/-- The delay keyword list of `simple_priority_guess` (main.py:193) and
`heuristic_priority` (agent_service/main.py:65). -/
def delayKeywords : List String :=
  ["yavas", "gecik", "slow"]

/-- `simple_priority_guess` (main.py:189-195). -/
def simple_priority_guess (text : String) : TicketPriority :=
  let lowered := pyLower text
  if urgencyKeywords.any (fun k => strContains lowered k) then TicketPriority.high
  else if delayKeywords.any (fun k => strContains lowered k) then TicketPriority.medium
  else TicketPriority.low

/-- `simple_category_guess` (main.py:198-206). -/
def simple_category_guess (text : String) : String :=
  let lowered := pyLower text
  if ["wifi", "internet", "lms", "vpn", "modem"].any (fun k => strContains lowered k) then
    "Internet"
  else if ["projeksiyon", "monitor", "ekran", "donanim", "bilgisayar", "lab"].any
      (fun k => strContains lowered k) then
    "Donanim"
  else if ["randevu", "danisman", "kayit", "transkript", "ogrenci"].any
      (fun k => strContains lowered k) then
    "Ogrenci Islemleri"
  else "Genel"

/-- `heuristic_priority` (agent_service/main.py:61-66), string-valued. -/
def heuristic_priority (text : String) : String :=
  let lowered := pyLower text
  if urgencyKeywords.any (fun k => strContains lowered k) then "high"
  else if delayKeywords.any (fun k => strContains lowered k) then "medium"
  else "low"

/-- `heuristic_category` (agent_service/main.py:69-77). -/
def heuristic_category (text : String) : String :=
  let lowered := pyLower text
  if ["wifi", "internet", "lms", "vpn", "modem"].any (fun k => strContains lowered k) then
    "Internet"
  else if ["projeksiyon", "monitor", "ekran", "donanim", "bilgisayar", "lab"].any
      (fun k => strContains lowered k) then
    "Donanim"
  else if ["randevu", "danisman", "kayit", "transkript", "ogrenci"].any
      (fun k => strContains lowered k) then
    "Ogrenci Islemleri"
  else "Genel"

/-- `pick_unit` (agent_service/main.py:80-86). -/
def pick_unit (category : String) : String :=
  if category = "Internet" then "Network"
  else if category = "Donanim" then "Donanim"
  else if category = "Ogrenci Islemleri" then "OgrenciIsleri"
  else "Genel"

/-- `schemas.SupportReport`. -/
structure SupportReport where
  supportUserId : Nat
  supportEmail : String
  closedThisWeek : Nat
  openAssigned : Nat
  averageResponseMinutes : Option Rat
  fastestResolutionMinutes : Option Rat
  slowestResolutionMinutes : Option Rat
deriving DecidableEq, Repr

/-- `schemas.DepartmentReport` (week bounds as day numbers). -/
structure DepartmentReport where
  departmentId : Nat
  weekStart : Nat
  weekEnd : Nat
  supports : List SupportReport
deriving DecidableEq, Repr

/-- `datetime.date()` on a second-resolution instant: the day number. -/
def dateOf (t : Time) : Nat := t / 86400

/-- `start_point = t.assigned_at or t.created_at` (main.py:684); `datetime`
values are always truthy in Python, so `or` falls through exactly on null. -/
def startPoint (t : Ticket) : Time := t.assignedAt.getD t.createdAt

/-- `(later - earlier).total_seconds() / 60` (main.py:686,688). -/
def minutesBetween (later earlier : Time) : Rat :=
  (((later : Int) - (earlier : Int) : Int) : Rat) / 60

/-- The per-support body of the loop in `department_report` (main.py:664-700).
The `if t.first_response_at and start_point` guard reduces to presence of
`first_response_at`, since `start_point` (a datetime) is always truthy. -/
def support_report_for (support : User) (tickets : List Ticket)
    (start_date week_end : Nat) : SupportReport :=
  let assigned := tickets.filter (fun t => t.assignedToId == some support.id)
  let closedList := assigned.filter (fun t =>
    match t.resolvedAt with
    | some r =>
        decide (start_date ≤ dateOf r) && decide (dateOf r < week_end)
          && (t.status == TicketStatus.resolved || t.status == TicketStatus.closed)
    | none => false)
  let openAssignedList := assigned.filter (fun t =>
    t.status == TicketStatus.«open» || t.status == TicketStatus.in_progress)
  let responseTimes := assigned.filterMap (fun t =>
    t.firstResponseAt.map (fun fr => minutesBetween fr (startPoint t)))
  let resolutionTimes := assigned.filterMap (fun t =>
    t.resolvedAt.map (fun r => minutesBetween r (startPoint t)))
  { supportUserId := support.id
    supportEmail := support.email
    closedThisWeek := closedList.length
    openAssigned := openAssignedList.length
    averageResponseMinutes :=
      if responseTimes.isEmpty then none
      else some (responseTimes.sum / (responseTimes.length : Rat))
    fastestResolutionMinutes := resolutionTimes.min?
    slowestResolutionMinutes := resolutionTimes.max? }

/-- `department_report` (main.py:638-702).  `today` stands for
`datetime.utcnow().date()`; week bounds are day numbers. -/
def department_report (departments : List Department) (users : List User)
    (tickets : List Ticket) (current_user : User) (department_id : Nat)
    (week_start : Option Nat) (today : Nat) : Except HTTPError DepartmentReport :=
  if current_user.role ≠ RoleEnum.department ∧ current_user.role ≠ RoleEnum.admin then
    .error ⟨403, "Only department/admin can view reports"⟩
  else if current_user.role = RoleEnum.department
      ∧ current_user.departmentId ≠ some department_id then
    .error ⟨403, "Not your department"⟩
  else
    match dbGetDepartment departments department_id with
    | none => .error ⟨404, "Department not found"⟩
    | some _ =>
        let start_date := week_start.getD (today - 7)
        let week_end := start_date + 7
        let supports := users.filter (fun u =>
          u.role == RoleEnum.support && u.departmentId == some department_id)
        .ok
          { departmentId := department_id
            weekStart := start_date
            weekEnd := week_end
            supports := supports.map (fun s => support_report_for s tickets start_date week_end) }

/-- The state-mutating ticket operations, for stating frame/timestamp
properties uniformly across handlers. -/
inductive TicketOp
  | edit (payload : TicketUpdate)
  | setStatus (newStatus : TicketStatus)
  | assign (users : List User) (support_user_id : Nat)
  | comment (content : String)
  | agentUpdate (payload : AgentUpdate)

/-- Dispatch of `TicketOp` to the corresponding handler; for `comment` the
mutated ticket row is the relevant result. -/
def applyOp (db : List Ticket) (current_user : User) (ticketId : Nat)
    (op : TicketOp) (now : Time) : Except HTTPError Ticket :=
  match op with
  | .edit p => update_ticket db current_user ticketId p now
  | .setStatus s => update_ticket_status db current_user ticketId s now
  | .assign users suid => assign_ticket db users current_user ticketId suid now
  | .comment c => (add_comment db current_user ticketId c now).map Prod.fst
  | .agentUpdate p => internal_agent_update db ticketId p now

/-- Which operations stamp `updated_at`: every mutating operation does — the
assignment handler through the ORM `onupdate` column default (models.py:81)
rather than an explicit assignment — except that an edit with an empty
payload returns early without mutating (no UPDATE is issued, so the
`onupdate` hook does not fire either). -/
def opSetsUpdatedAt (op : TicketOp) : Bool :=
  match op with
  | .edit p => !p.isEmptyUpdate
  | .setStatus _ => true
  | .assign _ _ => true
  | .comment _ => true
  | .agentUpdate _ => true

/-- Which operations stamp a null `first_response_at`: a transition to
`in_progress`, or a comment authored by a `support` user. -/
def opStampsFirstResponse (current_user : User) (op : TicketOp) : Bool :=
  match op with
  | .setStatus s => s == TicketStatus.in_progress
  | .comment _ => current_user.role == RoleEnum.support
  | _ => false

end CampuSupport

/-! ## Concrete fixtures used by witnesses and counterexamples -/

namespace CampuSupport

/-- A fresh open ticket of department 1, created by user 10. -/
def sampleTicket : Ticket :=
  { id := 1, title := "WiFi issue", description := "wifi kopuyor yurt"
    category := none, assignedUnit := none
    priority := TicketPriority.high, status := TicketStatus.«open»
    departmentId := 1, createdById := 10, assignedToId := none
    createdAt := 0, updatedAt := 5
    firstResponseAt := none, resolvedAt := none, closedAt := none, assignedAt := none }

/-- A student with no department. -/
def sampleStudent : User :=
  { id := 10, email := "student@test.com", role := RoleEnum.student, departmentId := none }

/-- A student whose own department is 2. -/
def sampleStudentDept2 : User :=
  { id := 11, email := "student2@test.com", role := RoleEnum.student, departmentId := some 2 }

/-- An admin. -/
def sampleAdmin : User :=
  { id := 20, email := "admin@test.com", role := RoleEnum.admin, departmentId := none }

/-- The manager of department 1. -/
def sampleManager : User :=
  { id := 30, email := "manager@test.com", role := RoleEnum.department, departmentId := some 1 }

/-- A support user of department 1. -/
def sampleSupport : User :=
  { id := 40, email := "support@test.com", role := RoleEnum.support, departmentId := some 1 }

/-- Department 1. -/
def sampleDepartment : Department :=
  { id := 1, name := "Bilgi Islem", description := some "Teknik destek ve altyapi" }

end CampuSupport

namespace CampuSupport

/-- Whether a handler call succeeded (no `HTTPException` raised). -/
def isOkResult {α : Type} (r : Except HTTPError α) : Bool :=
  match r with
  | .ok _ => true
  | .error _ => false

/-- `sampleTicket` in closed state. -/
def sampleClosedTicket : Ticket :=
  { sampleTicket with status := TicketStatus.closed }

/-- A ticket resolved at 3 and closed at 4 (both stamps already set). -/
def sampleResolvedTicket : Ticket :=
  { sampleTicket with status := TicketStatus.resolved, resolvedAt := some 3, closedAt := some 4 }

/-- `sampleTicket` already assigned to support user 40 at time 3. -/
def sampleAssignedTicket : Ticket :=
  { sampleTicket with assignedToId := some 40, assignedAt := some 3 }

/-- A creation payload targeting department 1. -/
def sampleTicketCreate : TicketCreate :=
  { title := "WiFi issue", description := "wifi kopuyor yurt", departmentId := 1
    priority := TicketPriority.high, category := none, assignedUnit := none }

end CampuSupport

/-! ## Helper lemmas -/

namespace CampuSupport

/-- The keyword scan `any(k in lowered for k in ks)` holds exactly when some
keyword of `ks` is a contiguous substring of the lowered text. -/
theorem containsAny_iff (ks : List String) (hay : List Char) :
    ks.any (fun k => strContains hay k) = true ↔ ∃ k ∈ ks, k.data <:+: hay := by
  simp [List.any_eq_true, strContains]

/-- Every branch of `simple_category_guess` returns a non-empty literal. -/
theorem simple_category_guess_ne_empty (text : String) :
    simple_category_guess text ≠ "" := by
  simp only [simple_category_guess]
  split_ifs <;> decide

/-- `heuristic_priority` only ever returns one of the three priority labels. -/
theorem heuristic_priority_mem (text : String) :
    heuristic_priority text ∈ (["low", "medium", "high"] : List String) := by
  simp only [heuristic_priority]
  split_ifs <;> simp

/-- If no ticket assigned to `support` carries `first_response_at`, the
response-time list of its report row is empty, so the average is `None`. -/
theorem support_report_for_avg_null (support : User) (tickets : List Ticket)
    (start_date week_end : Nat)
    (hfr : ∀ t ∈ tickets, t.assignedToId = some support.id → t.firstResponseAt = none) :
    (support_report_for support tickets start_date week_end).averageResponseMinutes = none := by
  have h : (tickets.filter (fun t => t.assignedToId == some support.id)).filterMap
      (fun t => t.firstResponseAt.map (fun fr => minutesBetween fr (startPoint t))) = [] := by
    rw [List.filterMap_eq_nil_iff]
    intro t htm
    rw [List.mem_filter] at htm
    have := hfr t htm.1 (by simpa using htm.2)
    simp [this]
  simp [support_report_for, h]

/-- If no ticket assigned to `support` carries `resolved_at`, the
resolution-time list is empty, so `min`/`max` are `None`. -/
theorem support_report_for_extremes_null (support : User) (tickets : List Ticket)
    (start_date week_end : Nat)
    (hres : ∀ t ∈ tickets, t.assignedToId = some support.id → t.resolvedAt = none) :
    (support_report_for support tickets start_date week_end).fastestResolutionMinutes = none ∧
    (support_report_for support tickets start_date week_end).slowestResolutionMinutes = none := by
  have h : (tickets.filter (fun t => t.assignedToId == some support.id)).filterMap
      (fun t => t.resolvedAt.map (fun r => minutesBetween r (startPoint t))) = [] := by
    rw [List.filterMap_eq_nil_iff]
    intro t htm
    rw [List.mem_filter] at htm
    have := hres t htm.1 (by simpa using htm.2)
    simp [this]
  constructor <;> simp [support_report_for, h]

end CampuSupport

/-! ## Claim theorems -/

namespace CampuSupport

/-- C1 (amended): when the ticket identifier is absent from the store, the
view, edit, change-status, delete, comment, and agent-update handlers all
return `NotFound` (404) before any authorization check, for every actor; the
assign handler, however, evaluates its coarse role gate first, so an actor
whose role is neither `department` nor `admin` receives `Forbidden` (403)
even for a missing ticket, while `department`/`admin` actors receive
`NotFound`. -/
theorem missing_ticket_yields_not_found
    (db : List Ticket) (current_user : User) (ticketId : Nat)
    (payload : TicketUpdate) (newStatus : TicketStatus) (content : String)
    (agentPayload : AgentUpdate) (users : List User) (support_user_id : Nat) (now : Time)
    (h : dbGetTicket db ticketId = none) :
    get_ticket db current_user ticketId = .error ⟨404, "Ticket not found"⟩ ∧
    update_ticket db current_user ticketId payload now = .error ⟨404, "Ticket not found"⟩ ∧
    update_ticket_status db current_user ticketId newStatus now
      = .error ⟨404, "Ticket not found"⟩ ∧
    delete_ticket db current_user ticketId = .error ⟨404, "Ticket not found"⟩ ∧
    add_comment db current_user ticketId content now = .error ⟨404, "Ticket not found"⟩ ∧
    internal_agent_update db ticketId agentPayload now = .error ⟨404, "Ticket not found"⟩ ∧
    ((current_user.role = RoleEnum.department ∨ current_user.role = RoleEnum.admin) →
        assign_ticket db users current_user ticketId support_user_id now
          = .error ⟨404, "Ticket not found"⟩) ∧
    (current_user.role ≠ RoleEnum.department ∧ current_user.role ≠ RoleEnum.admin →
        assign_ticket db users current_user ticketId support_user_id now
          = .error ⟨403, "Only department/admin can assign tickets"⟩) := by
  refine ⟨by simp [get_ticket, h], by simp [update_ticket, h],
          by simp [update_ticket_status, h], by simp [delete_ticket, h],
          by simp [add_comment, h], by simp [internal_agent_update, h],
          ?_, ?_⟩
  · intro ha
    have hg : ¬(current_user.role ≠ RoleEnum.department
        ∧ current_user.role ≠ RoleEnum.admin) := by
      rcases ha with ha | ha <;> simp [ha]
    simp [assign_ticket, h, hg]
  · intro ha
    simp [assign_ticket, ha.1, ha.2]

/-- C1 counterexample: a student invoking assign on an identifier absent from
an empty store receives `Forbidden` (403), not `NotFound` (404) — refuting
the claim that every ticket-targeting operation returns `NotFound` for a
missing ticket regardless of the actor's role. -/
theorem assign_missing_ticket_forbidden_for_student :
    assign_ticket [] [] sampleStudent 42 7 0
        = .error ⟨403, "Only department/admin can assign tickets"⟩ ∧
    assign_ticket [] [] sampleStudent 42 7 0 ≠ .error ⟨404, "Ticket not found"⟩ := by
  refine ⟨rfl, fun hcon => ?_⟩
  rw [show assign_ticket [] [] sampleStudent 42 7 0
      = .error ⟨403, "Only department/admin can assign tickets"⟩ from rfl] at hcon
  exact absurd (Except.error.inj hcon) (by decide)

/-- C1 witness: concrete instances of the amended statement. -/
theorem missing_ticket_yields_not_found_witness :
    get_ticket [] sampleStudent 42 = .error ⟨404, "Ticket not found"⟩ ∧
    update_ticket_status [] sampleStudent 42 TicketStatus.closed 0
        = .error ⟨404, "Ticket not found"⟩ ∧
    assign_ticket [] [] sampleStudent 42 7 0
        = .error ⟨403, "Only department/admin can assign tickets"⟩ :=
  ⟨(missing_ticket_yields_not_found [] sampleStudent 42 {} TicketStatus.closed "c" {} [] 7 0
      rfl).1,
   (missing_ticket_yields_not_found [] sampleStudent 42 {} TicketStatus.closed "c" {} [] 7 0
      rfl).2.2.1,
   (missing_ticket_yields_not_found [] sampleStudent 42 {} TicketStatus.closed "c" {} [] 7 0
      rfl).2.2.2.2.2.2.2 (by decide)⟩

/-- C2: every state-mutating ticket operation sets `updated_at` to the
current time as part of the mutation — a non-empty edit, a status change, a
comment addition, and an agent update stamp it explicitly, and an assignment
is restamped by the ORM `onupdate` column default on commit.  (An edit whose
payload provides no fields returns early and mutates nothing, so it is not a
state-mutating operation.) -/
theorem updated_at_stamping
    (db : List Ticket) (current_user : User) (ticketId : Nat) (op : TicketOp)
    (now : Time) (t r : Ticket)
    (ht : dbGetTicket db ticketId = some t)
    (hr : applyOp db current_user ticketId op now = .ok r) :
    r.updatedAt = if opSetsUpdatedAt op then now else t.updatedAt := by
  cases op with
  | edit p =>
      simp only [applyOp, update_ticket, ht] at hr
      split at hr
      all_goals try exact Except.noConfusion hr
      split at hr
      all_goals try exact Except.noConfusion hr
      split at hr
      all_goals try exact Except.noConfusion hr
      split at hr
      all_goals try exact Except.noConfusion hr
      split at hr
      all_goals rw [Except.ok.injEq] at hr; subst hr
      all_goals simp_all [opSetsUpdatedAt]
  | setStatus s =>
      simp only [applyOp, update_ticket_status, ht] at hr
      split at hr
      all_goals try exact Except.noConfusion hr
      split at hr
      all_goals try exact Except.noConfusion hr
      split at hr
      all_goals try exact Except.noConfusion hr
      rw [Except.ok.injEq] at hr; subst hr
      simp [opSetsUpdatedAt]
  | assign users suid =>
      simp only [applyOp, assign_ticket, ht] at hr
      repeat' split at hr
      all_goals first
        | exact Except.noConfusion hr
        | (rw [Except.ok.injEq] at hr; subst hr; simp [opSetsUpdatedAt])
  | comment c =>
      simp only [applyOp, add_comment, ht] at hr
      split at hr
      all_goals try exact Except.noConfusion hr
      simp only [Except.map, Except.ok.injEq] at hr; subst hr
      simp [opSetsUpdatedAt]
  | agentUpdate p =>
      simp only [applyOp, internal_agent_update, ht] at hr
      rw [Except.ok.injEq] at hr; subst hr
      simp [opSetsUpdatedAt]

/-- C2 witness: a support comment at time 9 stamps `updated_at` to 9. -/
theorem updated_at_stamping_witness :
    dbGetTicket [sampleTicket] 1 = some sampleTicket ∧
    applyOp [sampleTicket] sampleSupport 1 (TicketOp.comment "hi") 9
        = .ok { sampleTicket with updatedAt := 9, firstResponseAt := some 9 } ∧
    ({ sampleTicket with updatedAt := 9, firstResponseAt := some 9 } : Ticket).updatedAt
        = (if opSetsUpdatedAt (TicketOp.comment "hi") then 9 else sampleTicket.updatedAt) :=
  ⟨rfl, rfl,
   updated_at_stamping [sampleTicket] sampleSupport 1 (TicketOp.comment "hi") 9 sampleTicket
     { sampleTicket with updatedAt := 9, firstResponseAt := some 9 } rfl rfl⟩

/-- C3 (amended): ticket creation is gated on role and department existence
only: a `support` actor always receives `Forbidden`; for every other role
(student, department, admin) creation succeeds in any existing department —
no own-department restriction is enforced — and a nonexistent department
yields `NotFound`. -/
theorem create_ticket_role_gating
    (departments : List Department) (current_user : User)
    (ticket_in : TicketCreate) (newId : Nat) (now : Time) :
    (current_user.role = RoleEnum.support →
        create_ticket departments current_user ticket_in newId now
          = .error ⟨403, "Support users cannot create tickets"⟩) ∧
    (current_user.role ≠ RoleEnum.support →
        dbGetDepartment departments ticket_in.departmentId = none →
        create_ticket departments current_user ticket_in newId now
          = .error ⟨404, "Department not found"⟩) ∧
    (current_user.role ≠ RoleEnum.support →
        ∀ d, dbGetDepartment departments ticket_in.departmentId = some d →
          isOkResult (create_ticket departments current_user ticket_in newId now) = true) := by
  refine ⟨fun h => by simp [create_ticket, h],
          fun h hd => by simp [create_ticket, h, hd],
          fun h d hd => by simp [create_ticket, h, hd, isOkResult]⟩

/-- C3 counterexample: a student whose own department is 2 successfully
creates a ticket in department 1 — refuting the claim that student creation
succeeds only in the actor's own department. -/
theorem create_ticket_cross_department_succeeds :
    sampleStudentDept2.departmentId = some 2 ∧
    sampleTicketCreate.departmentId = 1 ∧
    isOkResult (create_ticket [sampleDepartment] sampleStudentDept2 sampleTicketCreate 5 0)
        = true :=
  ⟨rfl, rfl, rfl⟩

/-- C3 witness: support is rejected; an admin (no department) succeeds. -/
theorem create_ticket_role_gating_witness :
    create_ticket [sampleDepartment] sampleSupport sampleTicketCreate 5 0
        = .error ⟨403, "Support users cannot create tickets"⟩ ∧
    isOkResult (create_ticket [sampleDepartment] sampleAdmin sampleTicketCreate 5 0) = true :=
  ⟨(create_ticket_role_gating [sampleDepartment] sampleSupport sampleTicketCreate 5 0).1 rfl,
   (create_ticket_role_gating [sampleDepartment] sampleAdmin sampleTicketCreate 5 0).2.2
     (by decide) sampleDepartment rfl⟩

/-- C4: on a successful status change, entering `resolved` or `closed` sets
`resolved_at` to the current time only when it was null (write-once), while
entering `closed` always sets `closed_at` to the current time, overwriting
any previously stored value. -/
theorem resolution_timestamp_stamping
    (db : List Ticket) (current_user : User) (ticketId : Nat)
    (newStatus : TicketStatus) (now : Time) (t r : Ticket)
    (ht : dbGetTicket db ticketId = some t)
    (hr : update_ticket_status db current_user ticketId newStatus now = .ok r) :
    ((newStatus = TicketStatus.resolved ∨ newStatus = TicketStatus.closed) →
        r.resolvedAt = if t.resolvedAt = none then some now else t.resolvedAt) ∧
    (newStatus = TicketStatus.closed → r.closedAt = some now) := by
  simp only [update_ticket_status, ht] at hr
  split at hr
  · exact Except.noConfusion hr
  split at hr
  · exact Except.noConfusion hr
  split at hr
  · exact Except.noConfusion hr
  rw [Except.ok.injEq] at hr
  subst hr
  constructor
  · intro hs
    by_cases hn : t.resolvedAt = none <;> simp [hs, hn]
  · intro hs
    simp [hs]

/-- C4 witness: re-closing a ticket already resolved at 3 and closed at 4
keeps `resolved_at` = 3 and overwrites `closed_at` to 9. -/
theorem resolution_timestamp_stamping_witness :
    update_ticket_status [sampleResolvedTicket] sampleAdmin 1 TicketStatus.closed 9
        = .ok { sampleResolvedTicket with
                  status := TicketStatus.closed, updatedAt := 9, closedAt := some 9 } ∧
    ({ sampleResolvedTicket with
        status := TicketStatus.closed, updatedAt := 9, closedAt := some 9 } : Ticket).resolvedAt
        = (if sampleResolvedTicket.resolvedAt = none then some 9
           else sampleResolvedTicket.resolvedAt) ∧
    ({ sampleResolvedTicket with
        status := TicketStatus.closed, updatedAt := 9, closedAt := some 9 } : Ticket).closedAt
        = some 9 :=
  ⟨rfl,
   (resolution_timestamp_stamping [sampleResolvedTicket] sampleAdmin 1 TicketStatus.closed 9
      sampleResolvedTicket _ rfl rfl).1 (Or.inr rfl),
   (resolution_timestamp_stamping [sampleResolvedTicket] sampleAdmin 1 TicketStatus.closed 9
      sampleResolvedTicket _ rfl rfl).2 rfl⟩

/-- C5 (amended): editing a closed ticket fails with `InvalidState` (400,
"Closed tickets cannot be edited") for every actor that passes the handler's
role/ownership checks — admin (no bypass of the closed guard), the creating
student, and a department actor of the ticket's department; a `support`
actor instead fails earlier with `Forbidden`, since support may never edit. -/
theorem closed_ticket_edit_rejected
    (db : List Ticket) (current_user : User) (ticketId : Nat)
    (payload : TicketUpdate) (now : Time) (t : Ticket)
    (ht : dbGetTicket db ticketId = some t)
    (hclosed : t.status = TicketStatus.closed)
    (hauth : current_user.role = RoleEnum.admin
        ∨ (current_user.role = RoleEnum.student ∧ t.createdById = current_user.id)
        ∨ (current_user.role = RoleEnum.department
            ∧ current_user.departmentId = some t.departmentId)) :
    update_ticket db current_user ticketId payload now
      = .error ⟨400, "Closed tickets cannot be edited"⟩ := by
  simp only [update_ticket, ht]
  rcases hauth with ha | ⟨ha, hb⟩ | ⟨ha, hb⟩ <;> simp [ha, hclosed]
  · exact hb
  · simp [hb]

/-- C5 counterexample: a support actor editing a closed ticket of their own
department receives `Forbidden` (403), not `InvalidState` (400) — refuting
the claim that the edit fails with `InvalidState` for every actor role. -/
theorem closed_edit_support_gets_forbidden :
    update_ticket [sampleClosedTicket] sampleSupport 1 {} 9
        = .error ⟨403, "Support users cannot edit tickets"⟩ ∧
    update_ticket [sampleClosedTicket] sampleSupport 1 {} 9
        ≠ .error ⟨400, "Closed tickets cannot be edited"⟩ := by
  refine ⟨rfl, fun hcon => ?_⟩
  rw [show update_ticket [sampleClosedTicket] sampleSupport 1 {} 9
      = .error ⟨403, "Support users cannot edit tickets"⟩ from rfl] at hcon
  exact absurd (Except.error.inj hcon) (by decide)

/-- C5 witness: the admin case — no bypass of the closed-ticket guard. -/
theorem closed_ticket_edit_rejected_witness :
    update_ticket [sampleClosedTicket] sampleAdmin 1 {} 9
        = .error ⟨400, "Closed tickets cannot be edited"⟩ :=
  closed_ticket_edit_rejected [sampleClosedTicket] sampleAdmin 1 {} 9 sampleClosedTicket
    rfl rfl (Or.inl rfl)

/-- C6: `first_response_at` is write-once.  Across every state-mutating
ticket operation, a non-null value is preserved unchanged; a null value is
stamped with the current time exactly by a transition to `in_progress` or by
a comment authored by a `support` user, and by nothing else. -/
theorem first_response_at_write_once
    (db : List Ticket) (current_user : User) (ticketId : Nat) (op : TicketOp)
    (now : Time) (t r : Ticket)
    (ht : dbGetTicket db ticketId = some t)
    (hr : applyOp db current_user ticketId op now = .ok r) :
    r.firstResponseAt =
      if t.firstResponseAt.isSome then t.firstResponseAt
      else if opStampsFirstResponse current_user op then some now
      else none := by
  cases op with
  | edit p =>
      simp only [applyOp, update_ticket, ht] at hr
      repeat' split at hr
      all_goals first
        | exact Except.noConfusion hr
        | (rw [Except.ok.injEq] at hr; subst hr;
           simp only [applyTicketUpdate, opStampsFirstResponse];
           cases h : t.firstResponseAt <;> simp [h])
  | setStatus s =>
      simp only [applyOp, update_ticket_status, ht] at hr
      split at hr
      all_goals try exact Except.noConfusion hr
      split at hr
      all_goals try exact Except.noConfusion hr
      split at hr
      all_goals try exact Except.noConfusion hr
      rw [Except.ok.injEq] at hr; subst hr
      simp only [opStampsFirstResponse]
      cases h : t.firstResponseAt <;>
        by_cases hs : s = TicketStatus.in_progress <;> simp [h, hs]
  | assign users suid =>
      simp only [applyOp, assign_ticket, ht] at hr
      repeat' split at hr
      all_goals first
        | exact Except.noConfusion hr
        | (rw [Except.ok.injEq] at hr; subst hr;
           simp only [opStampsFirstResponse];
           cases h : t.firstResponseAt <;> simp [h])
  | comment c =>
      simp only [applyOp, add_comment, ht] at hr
      split at hr
      all_goals try exact Except.noConfusion hr
      simp only [Except.map, Except.ok.injEq] at hr; subst hr
      simp only [opStampsFirstResponse]
      cases h : t.firstResponseAt <;>
        by_cases hs : current_user.role = RoleEnum.support <;> simp [h, hs]
  | agentUpdate p =>
      simp only [applyOp, internal_agent_update, ht] at hr
      rw [Except.ok.injEq] at hr; subst hr
      simp only [opStampsFirstResponse]
      cases h : t.firstResponseAt <;> simp [h]

/-- C6 witness: a first transition to `in_progress` stamps
`first_response_at` with the current time. -/
theorem first_response_at_write_once_witness :
    dbGetTicket [sampleTicket] 1 = some sampleTicket ∧
    applyOp [sampleTicket] sampleAdmin 1 (TicketOp.setStatus TicketStatus.in_progress) 7
        = .ok { sampleTicket with
                  status := TicketStatus.in_progress, updatedAt := 7,
                  firstResponseAt := some 7 } ∧
    ({ sampleTicket with
        status := TicketStatus.in_progress, updatedAt := 7,
        firstResponseAt := some 7 } : Ticket).firstResponseAt
        = (if sampleTicket.firstResponseAt.isSome then sampleTicket.firstResponseAt
           else if opStampsFirstResponse sampleAdmin
               (TicketOp.setStatus TicketStatus.in_progress) then some 7
           else none) :=
  ⟨rfl, rfl,
   first_response_at_write_once [sampleTicket] sampleAdmin 1
     (TicketOp.setStatus TicketStatus.in_progress) 7 sampleTicket
     { sampleTicket with
         status := TicketStatus.in_progress, updatedAt := 7, firstResponseAt := some 7 }
     rfl rfl⟩

/-- C7: for an authorized actor (admin, or a department actor of the
ticket's department), assignment fails with `InvalidAssignment` (400) —
returning an error, hence producing no mutated ticket — whenever the
designated assignee does not exist, is not a `support` user, or is a support
user of a different department; and when the assignee is a support user of
the ticket's department it succeeds, setting the assignee and stamping
`assigned_at` with the current time (the committed row also carries the
`updated_at` restamp applied by the ORM `onupdate` default). -/
theorem assign_validation
    (tickets : List Ticket) (users : List User) (current_user : User)
    (ticketId : Nat) (support_user_id : Nat) (now : Time) (t : Ticket)
    (ht : dbGetTicket tickets ticketId = some t)
    (hauth : current_user.role = RoleEnum.admin
        ∨ (current_user.role = RoleEnum.department
            ∧ current_user.departmentId = some t.departmentId)) :
    (dbGetUser users support_user_id = none →
        assign_ticket tickets users current_user ticketId support_user_id now
          = .error ⟨400, "Support user not found"⟩) ∧
    (∀ su, dbGetUser users support_user_id = some su →
        (su.role ≠ RoleEnum.support →
            assign_ticket tickets users current_user ticketId support_user_id now
              = .error ⟨400, "Support user not found"⟩) ∧
        (su.role = RoleEnum.support → su.departmentId ≠ some t.departmentId →
            assign_ticket tickets users current_user ticketId support_user_id now
              = .error ⟨400, "Support user is in a different department"⟩) ∧
        (su.role = RoleEnum.support → su.departmentId = some t.departmentId →
            assign_ticket tickets users current_user ticketId support_user_id now
              = .ok { t with
                  assignedToId := some su.id, assignedAt := some now,
                  updatedAt := now })) := by
  have hgate : ¬(current_user.role ≠ RoleEnum.department
      ∧ current_user.role ≠ RoleEnum.admin) := by
    rcases hauth with ha | ⟨ha, _⟩ <;> simp [ha]
  have hdept : ¬(current_user.role = RoleEnum.department
      ∧ some t.departmentId ≠ current_user.departmentId) := by
    rcases hauth with ha | ⟨ha, hb⟩
    · simp [ha]
    · simp [ha, hb]
  constructor
  · intro hf
    simp [assign_ticket, ht, hgate, hdept, hf]
  · intro su hf
    refine ⟨fun hs => ?_, fun hs hd => ?_, fun hs hd => ?_⟩
    · simp [assign_ticket, ht, hgate, hdept, hf, hs]
    · simp [assign_ticket, ht, hgate, hdept, hf, hs, hd]
    · simp [assign_ticket, ht, hgate, hdept, hf, hs, hd]

/-- C7 witness: the manager of department 1 assigns a department-1 support
user, which succeeds and stamps `assigned_at`. -/
theorem assign_validation_witness :
    assign_ticket [sampleTicket] [sampleSupport] sampleManager 1 40 9
        = .ok { sampleTicket with
            assignedToId := some 40, assignedAt := some 9, updatedAt := 9 } :=
  ((assign_validation [sampleTicket] [sampleSupport] sampleManager 1 40 9 sampleTicket rfl
      (Or.inr ⟨rfl, rfl⟩)).2 sampleSupport rfl).2.2 rfl rfl

/-- C8: the classification fallback is a total, deterministic function of the
description (both `simple_priority_guess` and `heuristic_priority` are pure
Lean functions, so totality and determinism hold by construction): priority
is `high` exactly when an urgency keyword occurs in the lowercased text,
else `medium` exactly when a delay keyword occurs, else `low`; the string
variant only returns the three valid labels; and the category guess is never
empty, with the agent-service copy agreeing with the ticket-service copy. -/
theorem classification_fallback_total (text : String) :
    (simple_priority_guess text = TicketPriority.high ↔
        ∃ k ∈ urgencyKeywords, k.data <:+: pyLower text) ∧
    (simple_priority_guess text = TicketPriority.medium ↔
        (¬ ∃ k ∈ urgencyKeywords, k.data <:+: pyLower text) ∧
        ∃ k ∈ delayKeywords, k.data <:+: pyLower text) ∧
    (simple_priority_guess text = TicketPriority.low ↔
        (¬ ∃ k ∈ urgencyKeywords, k.data <:+: pyLower text) ∧
        ¬ ∃ k ∈ delayKeywords, k.data <:+: pyLower text) ∧
    heuristic_priority text ∈ (["low", "medium", "high"] : List String) ∧
    simple_category_guess text ≠ "" ∧
    heuristic_category text = simple_category_guess text := by
  have hu := containsAny_iff urgencyKeywords (pyLower text)
  have hd := containsAny_iff delayKeywords (pyLower text)
  refine ⟨?_, ?_, ?_, heuristic_priority_mem text, simple_category_guess_ne_empty text, rfl⟩ <;>
    simp only [← hu, ← hd] <;>
    by_cases h1 : urgencyKeywords.any (fun k => strContains (pyLower text) k) = true <;>
    by_cases h2 : delayKeywords.any (fun k => strContains (pyLower text) k) = true <;>
    simp [simple_priority_guess, h1, h2]

/-- C8 witness: "wifi kopuyor yurt" contains the urgency keyword "kopuyor",
so the fallback classifies it as high priority. -/
theorem classification_fallback_total_witness :
    simple_priority_guess "wifi kopuyor yurt" = TicketPriority.high :=
  (classification_fallback_total "wifi kopuyor yurt").1.mpr
    ⟨"kopuyor", by decide, by decide⟩

/-- C9: for an authorized actor and an existing department, the report never
errors; and in each per-support row, if no ticket assigned to that support
user has `first_response_at` set then the average-response field is null,
and if none has `resolved_at` set then the fastest/slowest-resolution fields
are null — in particular a department with zero assigned tickets yields a
valid report with all three fields null. -/
theorem report_null_on_no_qualifying_tickets
    (departments : List Department) (users : List User) (tickets : List Ticket)
    (current_user : User) (department_id : Nat) (week_start : Option Nat) (today : Nat)
    (d : Department)
    (hauth : current_user.role = RoleEnum.admin
        ∨ (current_user.role = RoleEnum.department
            ∧ current_user.departmentId = some department_id))
    (hdep : dbGetDepartment departments department_id = some d) :
    isOkResult (department_report departments users tickets current_user department_id
        week_start today) = true ∧
    ∀ rep, department_report departments users tickets current_user department_id
        week_start today = .ok rep →
      ∀ sr ∈ rep.supports,
        ((∀ t ∈ tickets, t.assignedToId = some sr.supportUserId →
              t.firstResponseAt = none) →
            sr.averageResponseMinutes = none) ∧
        ((∀ t ∈ tickets, t.assignedToId = some sr.supportUserId → t.resolvedAt = none) →
            sr.fastestResolutionMinutes = none ∧ sr.slowestResolutionMinutes = none) := by
  have hgate : ¬(current_user.role ≠ RoleEnum.department
      ∧ current_user.role ≠ RoleEnum.admin) := by
    rcases hauth with ha | ⟨ha, _⟩ <;> simp [ha]
  have hgate2 : ¬(current_user.role = RoleEnum.department
      ∧ current_user.departmentId ≠ some department_id) := by
    rcases hauth with ha | ⟨ha, hb⟩
    · simp [ha]
    · simp [ha, hb]
  simp only [department_report, hdep, if_neg hgate, if_neg hgate2]
  refine ⟨rfl, fun rep hrep sr hsr => ?_⟩
  rw [Except.ok.injEq] at hrep
  subst hrep
  simp only [List.mem_map] at hsr
  obtain ⟨s, hs, rfl⟩ := hsr
  exact ⟨fun hfr => support_report_for_avg_null s tickets _ _ hfr,
         fun hres => support_report_for_extremes_null s tickets _ _ hres⟩

/-- C9 witness: department 1 with one support user and an empty ticket store
yields a valid report whose average/fastest/slowest fields are all null. -/
theorem report_null_on_no_qualifying_tickets_witness :
    isOkResult (department_report [sampleDepartment] [sampleSupport] [] sampleManager 1
        none 10) = true ∧
    (support_report_for sampleSupport [] 3 10).averageResponseMinutes = none ∧
    (support_report_for sampleSupport [] 3 10).fastestResolutionMinutes = none ∧
    (support_report_for sampleSupport [] 3 10).slowestResolutionMinutes = none := by
  have h := report_null_on_no_qualifying_tickets [sampleDepartment] [sampleSupport] []
    sampleManager 1 none 10 sampleDepartment (Or.inr ⟨rfl, rfl⟩) rfl
  have hrep : department_report [sampleDepartment] [sampleSupport] [] sampleManager 1 none 10
      = .ok ⟨1, 3, 10, [support_report_for sampleSupport [] 3 10]⟩ := rfl
  have hmem : support_report_for sampleSupport [] 3 10
      ∈ (DepartmentReport.mk 1 3 10 [support_report_for sampleSupport [] 3 10]).supports :=
    List.mem_singleton.mpr rfl
  have h2 := h.2 _ hrep _ hmem
  exact ⟨h.1,
         h2.1 (fun t ht _ => absurd ht (List.not_mem_nil t)),
         (h2.2 (fun t ht _ => absurd ht (List.not_mem_nil t))).1,
         (h2.2 (fun t ht _ => absurd ht (List.not_mem_nil t))).2⟩

/-- C10 (amended): a successful assignment produces exactly the input ticket
with `assigned_to_id` set to the requested assignee, `assigned_at`
overwritten with the current time (it is not write-once: every
re-assignment overwrites it), and `updated_at` restamped with the current
time by the ORM `onupdate` column default — every other field (status,
priority, title, description, category, department, creator, and the
remaining timestamps) is unchanged. -/
theorem assign_frame_condition
    (tickets : List Ticket) (users : List User) (current_user : User)
    (ticketId : Nat) (support_user_id : Nat) (now : Time) (t r : Ticket)
    (ht : dbGetTicket tickets ticketId = some t)
    (hr : assign_ticket tickets users current_user ticketId support_user_id now = .ok r) :
    r = { t with
        assignedToId := some support_user_id, assignedAt := some now,
        updatedAt := now } := by
  simp only [assign_ticket, ht] at hr
  split at hr
  all_goals try exact Except.noConfusion hr
  split at hr
  all_goals try exact Except.noConfusion hr
  split at hr
  all_goals try exact Except.noConfusion hr
  rename_i su hfind
  split at hr
  all_goals try exact Except.noConfusion hr
  split at hr
  all_goals try exact Except.noConfusion hr
  rw [Except.ok.injEq] at hr
  have hid : su.id = support_user_id := by simpa using List.find?_some hfind
  rw [← hr, hid]

/-- C10 counterexample: a successful assignment at time 99 of a ticket whose
`updated_at` was 5 commits a row with `updated_at` = 99 — refuting the claim
that assignment modifies only `assigned_to_id` and `assigned_at` and leaves
the other timestamps unchanged. -/
theorem assign_restamps_updated_at :
    assign_ticket [sampleTicket] [sampleSupport] sampleManager 1 40 99
        = .ok { sampleTicket with
            assignedToId := some 40, assignedAt := some 99, updatedAt := 99 } ∧
    sampleTicket.updatedAt = 5 ∧
    ({ sampleTicket with
        assignedToId := some 40, assignedAt := some 99, updatedAt := 99 } : Ticket).updatedAt
        = 99 ∧
    (99 : Nat) ≠ 5 :=
  ⟨rfl, rfl, rfl, by decide⟩

/-- C10 witness: re-assigning a ticket whose `assigned_at` was 3 overwrites
it with the new time 9 and restamps `updated_at`, leaving all other fields
as they were. -/
theorem assign_frame_condition_witness :
    dbGetTicket [sampleAssignedTicket] 1 = some sampleAssignedTicket ∧
    sampleAssignedTicket.assignedAt = some 3 ∧
    ({ sampleAssignedTicket with
        assignedToId := some 40, assignedAt := some 9, updatedAt := 9 } : Ticket)
        = { sampleAssignedTicket with
            assignedToId := some 40, assignedAt := some 9, updatedAt := 9 } :=
  ⟨rfl, rfl,
   assign_frame_condition [sampleAssignedTicket] [sampleSupport] sampleManager 1 40 9
     sampleAssignedTicket
     { sampleAssignedTicket with
         assignedToId := some 40, assignedAt := some 9, updatedAt := 9 } rfl rfl⟩

end CampuSupport
